import Mathlib

/-!
# Verification of the Feature-Engineering service core

A shallow embedding of the core of the ADEPT-ML Feature-Engineering
service: the `Building`/`Sensor` data model, the JSON decoder
(`json_to_buildings`), the JSON encoder (`encode`, modelling the
`JSONEncoder` of `main.py` composed with `DataFrame.to_json`), the
differencing transform (`add_diff_cols_for_consumption_units` of
`src/features.py`) and the two normalization transforms
(`min_max_normalization`, `mean_normalization` of
`src/normalization.py`).

Modelling conventions:
* Numeric cell values are rationals (`ℚ`); a missing cell (`NaN` in
  pandas) is `Option.none`.  Float `0/0` (which pandas turns into `NaN`)
  is modelled by returning `none` in exactly those cases.
* A pandas `DataFrame` is a row index (epoch-millisecond integers, as
  produced by `pd.to_datetime(..., unit='ms')`) together with an ordered
  list of named columns, each column aligned with the index.
* Python exceptions are modelled with `Option`: a function that can
  raise returns `none` in place of raising, and a caller observing
  `none` observes "the operation failed, no result was produced".
* The standard-library `json` module is modelled at the abstraction of
  parse results: `JsonStr` is a Python string seen through `json.loads`,
  either `valid j` (`json.loads` returns the value `j`) or `invalid s`
  (`json.loads` raises).  `json.dumps` always produces a valid string.
-/

/-- A JSON value (numbers are modelled as exact rationals). -/
inductive Json where
  | null : Json
  | num : ℚ → Json
  | str : String → Json
  | arr : List Json → Json
  | obj : List (String × Json) → Json
deriving Repr

/-- A Python string, seen through the lens of `json.loads`: either it
parses to a JSON value or `json.loads` raises on it. -/
inductive JsonStr where
  | valid : Json → JsonStr
  | invalid : String → JsonStr
deriving Repr

/-- Model of `json.loads` on an embedded string: the parse result, or
`none` when the string is not valid JSON (the Python call raises). -/
def loads : JsonStr → Option Json
  | JsonStr.valid j => some j
  | JsonStr.invalid _ => none

/-- Model of `json.dumps` on a JSON value: serialization always yields a
string that parses back to the same value. -/
def dumps (j : Json) : JsonStr := JsonStr.valid j

/-! ## Decimal rendering and parsing of epoch-millisecond keys

The decoder feeds the table's row keys (decimal strings) through
`pd.to_datetime(..., unit='ms')`, i.e. parses them as integers; the
encoder's `DataFrame.to_json` renders the timestamps back as decimal
strings.  Both directions are modelled by an explicit decimal
printer/parser pair. -/

/-- The character for a decimal digit value (code point `48 + d`). -/
def digitChar (d : Nat) : Char := Char.ofNat (48 + d % 10)

/-- The value of a decimal digit character, `none` for non-digits. -/
def digitVal (c : Char) : Option Nat :=
  if 48 ≤ c.toNat ∧ c.toNat ≤ 57 then some (c.toNat - 48) else none

/-- Little-endian decimal digits of a natural number (`[]` for `0`). -/
def natDigitsRev : Nat → List Char
  | 0 => []
  | n + 1 => digitChar ((n + 1) % 10) :: natDigitsRev ((n + 1) / 10)
decreasing_by exact Nat.div_lt_self (Nat.succ_pos n) (by omega)

/-- Big-endian decimal digit characters of a natural number. -/
def natChars (n : Nat) : List Char :=
  if n = 0 then ['0'] else (natDigitsRev n).reverse

/-- Decimal rendering of an integer, as `DataFrame.to_json` renders an
epoch-millisecond timestamp. -/
def renderMs (i : Int) : String :=
  match i with
  | Int.ofNat n => String.mk (natChars n)
  | Int.negSucc m => String.mk ('-' :: natChars (m + 1))

/-- Parse a little-endian list of decimal digit characters. -/
def parseDigitsRev : List Char → Option Nat
  | [] => some 0
  | c :: cs =>
    match digitVal c, parseDigitsRev cs with
    | some d, some n => some (d + 10 * n)
    | _, _ => none

/-- Parse a decimal string as an integer; models the conversion of a row
key by `pd.to_datetime(..., unit='ms')`, `none` when the key is not
numeric (the Python call raises). -/
def parseMs (s : String) : Option Int :=
  match s.data with
  | [] => none
  | c :: cs =>
    if c = '-' then
      if cs = [] then none
      else (parseDigitsRev cs.reverse).map (fun n => -(n : Int))
    else (parseDigitsRev (c :: cs).reverse).map (fun n => (n : Int))

/-! ## The data model (`src/features.py`, `src/normalization.py`) -/

/-- Contains all information to describe a sensor
(`Building.Sensor` in `src/features.py`). -/
structure Sensor where
  type : String
  desc : String
  unit : String
deriving DecidableEq, Repr

/-- A pandas `DataFrame` as used by the service: a row index of
epoch-millisecond timestamps and named columns of possibly-missing
rational values, each column aligned with the index. -/
structure DataFrame where
  index : List Int
  cols : List (String × List (Option ℚ))
deriving DecidableEq, Repr

/-- Contains all information of a building (`Building` in
`src/features.py`). -/
structure Building where
  name : String
  sensors : List Sensor
  dataframe : DataFrame
deriving DecidableEq, Repr

/-- A mapping from building name to `Building`; Python's insertion-ordered
`dict` is modelled as an association list. -/
abbrev BuildingCollection := List (String × Building)

/-- One building entry of the wire payload: the fields of the JSON
object that `json_to_buildings` reads (`name` is present in encoder
output but ignored by the decoder). -/
structure BPayload where
  name : Option String
  sensors : List Sensor
  dataframe : JsonStr
deriving Repr

/-- The wire payload: a JSON object mapping building names to building
payloads. -/
abbrev Payload := List (String × BPayload)

/-! ## Decoder (`json_to_buildings`, `src/features.py`) -/

/-- Effectful map over a list in the `Option` monad, modelling a Python
`for` loop that can raise: the first failing element aborts the whole
loop with no result. -/
def mapOpt (f : α → Option β) : List α → Option (List β)
  | [] => some []
  | a :: rest =>
    match f a with
    | none => none
    | some b => (mapOpt f rest).map (fun bs => b :: bs)

/-- Parse one table cell: JSON `null` is a missing value, a JSON number
is a present value, anything else fails. -/
def parseCell : Json → Option (Option ℚ)
  | Json.null => some none
  | Json.num q => some (some q)
  | _ => none

/-- Parse the column-oriented table JSON
(`pd.DataFrame(df_json)` followed by the `pd.to_datetime` index
conversion): an object mapping column names to objects mapping
epoch-millisecond keys to numeric-or-null cells.  Requires the shape the
spec gives for tables: distinct column names, the same row-key sequence
in every column, numeric keys with distinct values.  Fails (`none`)
otherwise. -/
def parseTable : Json → Option DataFrame
  | Json.obj colsJ =>
    match mapOpt (fun c =>
        match c.2 with
        | Json.obj rows => some (c.1, rows)
        | _ => none) colsJ with
    | none => none
    | some colRows =>
      if (colRows.map Prod.fst).Nodup then
        match colRows with
        | [] => some ⟨[], []⟩
        | c0 :: rest =>
          if (c0 :: rest).all (fun c => decide (c.2.map Prod.fst = c0.2.map Prod.fst)) then
            match mapOpt parseMs (c0.2.map Prod.fst) with
            | none => none
            | some idx =>
              if idx.Nodup then
                match mapOpt (fun c =>
                    (mapOpt (fun r => parseCell r.2) c.2).map
                      (fun vs => (c.1, vs))) (c0 :: rest) with
                | none => none
                | some cols => some ⟨idx, cols⟩
              else none
          else none
      else none
  | _ => none

/-- `json_to_buildings` (`src/features.py`): converts the JSON
representation of buildings into building objects.  For each entry the
sensors are taken verbatim, the embedded `dataframe` string is parsed
with `json.loads` and turned into a time-indexed table; any failure
aborts the whole conversion with no result. -/
def json_to_buildings (data : Payload) : Option BuildingCollection :=
  mapOpt (fun kb =>
    ((loads kb.2.dataframe).bind parseTable).map
      (fun df => (kb.1, Building.mk kb.1 kb.2.sensors df))) data

/-! ## Encoder (`JSONEncoder` of `main.py` with `DataFrame.to_json`) -/

/-- Render one cell as `DataFrame.to_json` does: missing becomes JSON
`null`, a value becomes a JSON number. -/
def cellToJson : Option ℚ → Json
  | none => Json.null
  | some q => Json.num q

/-- `DataFrame.to_json`: column-oriented JSON with the timestamps
rendered as decimal epoch-millisecond keys. -/
def tableToJson (df : DataFrame) : Json :=
  Json.obj (df.cols.map (fun c =>
    (c.1, Json.obj (List.zip (df.index.map renderMs) (c.2.map cellToJson)))))

/-- Encoding of one `Building` by `JSONEncoder.default`
(`dataclasses.asdict` plus `DataFrame.to_json`). -/
def encodeBuilding (b : Building) : BPayload :=
  ⟨some b.name, b.sensors, dumps (tableToJson b.dataframe)⟩

/-- `json.dumps(buildings, cls=JSONEncoder)` (`main.py`): serializes a
building collection back to the wire payload shape. -/
def encode (c : BuildingCollection) : Payload :=
  c.map (fun kv => (kv.1, encodeBuilding kv.2))

/-! ## Differencing transform (`add_diff_cols_for_consumption_units`) -/

/-- The recognized consumption units (`["kWh", "m³", "kvarh"]` in
`src/features.py`). -/
def consumptionUnits : List String := ["kWh", "m³", "kvarh"]

/-- The sensor-selection test `s.unit in ["kWh", "m³", "kvarh"]`. -/
def isConsumption (s : Sensor) : Bool := consumptionUnits.contains s.unit

/-- First difference of one column (`DataFrame.diff(periods=1)` on that
column): the first row becomes missing, row `i ≥ 1` becomes
`v[i] - v[i-1]`, and any difference involving a missing cell is
missing. -/
def diffCol : List (Option ℚ) → List (Option ℚ)
  | [] => []
  | a :: rest =>
    none :: List.zipWith (fun prev cur =>
      match prev, cur with
      | some p, some c => some (c - p)
      | _, _ => none) (a :: rest) rest

/-- `DataFrame.diff(periods=1)`: first difference of every column, index
unchanged. -/
def diffDF (df : DataFrame) : DataFrame :=
  ⟨df.index, df.cols.map (fun c => (c.1, diffCol c.2))⟩

/-- Column lookup `df[name]`: the first column of that name, `none`
when the name is no column of the frame (the Python lookup raises a
`KeyError`). -/
def getCol? (df : DataFrame) (n : String) : Option (List (Option ℚ)) :=
  (df.cols.find? (fun c => c.1 == n)).map Prod.snd

/-- Column lookup with the empty column as default. -/
def getColD (df : DataFrame) (n : String) : List (Option ℚ) :=
  (getCol? df n).getD []

/-- Column assignment `df[name] = vals`: overwrites the column in place
when the name exists, otherwise appends a new column at the end. -/
def setCol (df : DataFrame) (n : String) (vals : List (Option ℚ)) : DataFrame :=
  if n ∈ df.cols.map Prod.fst then
    ⟨df.index, df.cols.map (fun c => if c.1 = n then (n, vals) else c)⟩
  else
    ⟨df.index, df.cols ++ [(n, vals)]⟩

/-- The derived sensor appended for a differenced sensor. -/
def diffSensor (s : Sensor) : Sensor :=
  ⟨s.type ++ " Diff", s.desc, s.unit ++ " / 15 min"⟩

/-- The per-building loop body of `add_diff_cols_for_consumption_units`:
for every selected sensor, look its type up in the pre-computed diff
frame (a missing column raises a `KeyError`, modelled as `none`), assign
the diff column and append the derived sensor. -/
def addDiffLoop (dv : DataFrame) : List Sensor → Building → Option Building
  | [], b => some b
  | s :: rest, b =>
    match getCol? dv s.type with
    | none => none
    | some col =>
      addDiffLoop dv rest
        ⟨b.name, b.sensors ++ [diffSensor s],
         setCol b.dataframe (s.type ++ " Diff") col⟩

/-- The body of `add_diff_cols_for_consumption_units` for one building:
select the consumption-unit sensors from the pre-transform sensor list,
compute the diff of the whole frame once, then run the assignment
loop. -/
def add_diff_cols_building (b : Building) : Option Building :=
  addDiffLoop (diffDF b.dataframe) (b.sensors.filter isConsumption) b

/-- `add_diff_cols_for_consumption_units` (`src/features.py`): generates
differential values for all sensors that measure consumption units, for
every building of the collection.  The Python function mutates the
collection in place and can raise; this model returns the updated
collection, or `none` when the Python call would raise. -/
def add_diff_cols_for_consumption_units (c : BuildingCollection) :
    Option BuildingCollection :=
  mapOpt (fun kv => (add_diff_cols_building kv.2).map (fun b => (kv.1, b))) c

/-! ## Normalization transforms (`src/normalization.py`) -/

/-- The finite (non-missing) values of a column; pandas statistics skip
`NaN` cells. -/
def finiteVals (v : List (Option ℚ)) : List ℚ := v.filterMap id

/-- Minimum of a list of rationals, `none` when empty (`Series.min`). -/
def minList : List ℚ → Option ℚ
  | [] => none
  | x :: xs =>
    some (match minList xs with
      | none => x
      | some m => min x m)

/-- Maximum of a list of rationals, `none` when empty (`Series.max`). -/
def maxList : List ℚ → Option ℚ
  | [] => none
  | x :: xs =>
    some (match maxList xs with
      | none => x
      | some m => max x m)

/-- `Series.min` of a column: minimum over its finite values, `none`
(`NaN`) when there are none. -/
def colMin (v : List (Option ℚ)) : Option ℚ := minList (finiteVals v)

/-- `Series.max` of a column: maximum over its finite values, `none`
(`NaN`) when there are none. -/
def colMax (v : List (Option ℚ)) : Option ℚ := maxList (finiteVals v)

/-- Min-max normalization of one column, `(df - df.min()) / (df.max() - df.min())`
restricted to that column: missing cells stay missing; when the column
minimum equals the column maximum every present cell is `x - min = 0`
over `max - min = 0`, the float `0/0 = NaN`, modelled as missing. -/
def minMaxCol (v : List (Option ℚ)) : List (Option ℚ) :=
  v.map (fun cell =>
    match cell, colMin v, colMax v with
    | some x, some mn, some mx =>
      if mn = mx then none else some ((x - mn) / (mx - mn))
    | _, _, _ => none)

/-- `Series.mean` of a column: arithmetic mean over its finite values,
`none` (`NaN`) when there are none. -/
def colMean (v : List (Option ℚ)) : Option ℚ :=
  let xs := finiteVals v
  if xs.length = 0 then none else some (xs.sum / (xs.length : ℚ))

/-- Exact rational square root: `some r` with `r ≥ 0` and `r * r = q`
when such a rational exists, `none` otherwise. -/
def ratSqrt (q : ℚ) : Option ℚ :=
  if q < 0 then none
  else
    let sn := Nat.sqrt q.num.toNat
    let sd := Nat.sqrt q.den
    if sn * sn = q.num.toNat ∧ sd * sd = q.den then
      some ((sn : ℚ) / (sd : ℚ))
    else none

/-- `Series.std` of a column: sample standard deviation (denominator
`n - 1`) over the finite values, `none` (`NaN`) when fewer than two are
present.  The float square root is modelled exactly: the result is the
rational square root of the sample variance when it exists. -/
def colStd (v : List (Option ℚ)) : Option ℚ :=
  let xs := finiteVals v
  if xs.length ≤ 1 then none
  else
    match colMean v with
    | none => none
    | some m => ratSqrt ((xs.map (fun x => (x - m) ^ 2)).sum / ((xs.length : ℚ) - 1))

/-- Mean (z-score) normalization of one column,
`(df - df.mean()) / df.std()` restricted to that column: missing cells
stay missing; an undefined standard deviation makes every cell missing,
and a zero standard deviation means the column is constant, so every
present cell is the float `0/0 = NaN`, modelled as missing. -/
def meanCol (v : List (Option ℚ)) : List (Option ℚ) :=
  v.map (fun cell =>
    match cell, colMean v, colStd v with
    | some x, some m, some s =>
      if s = 0 then none else some ((x - m) / s)
    | _, _, _ => none)

/-- Min-max normalization of one building: every column of its frame is
rescaled with that column's own minimum and maximum; name, sensors and
index are untouched. -/
def minMaxBuilding (b : Building) : Building :=
  ⟨b.name, b.sensors,
   ⟨b.dataframe.index, b.dataframe.cols.map (fun c => (c.1, minMaxCol c.2))⟩⟩

/-- `min_max_normalization` (`src/normalization.py`): normalizes all
data in the building-dicts dataframes to a range from 0 to 1 (mutation
in place modelled as returning the updated collection). -/
def min_max_normalization (c : BuildingCollection) : BuildingCollection :=
  c.map (fun kv => (kv.1, minMaxBuilding kv.2))

/-- Mean normalization of one building: every column of its frame is
rescaled with that column's own mean and sample standard deviation;
name, sensors and index are untouched. -/
def meanBuilding (b : Building) : Building :=
  ⟨b.name, b.sensors,
   ⟨b.dataframe.index, b.dataframe.cols.map (fun c => (c.1, meanCol c.2))⟩⟩

/-- `mean_normalization` (`src/normalization.py`): normalizes all data
in the building-dicts dataframes into a standard score (mutation in
place modelled as returning the updated collection). -/
def mean_normalization (c : BuildingCollection) : BuildingCollection :=
  c.map (fun kv => (kv.1, meanBuilding kv.2))

/-! ## The column/sensor correspondence invariant (spec §3) -/

/-- The data-model invariant: every column name of the table corresponds
to exactly one `Sensor.type` of the sensor list. -/
def invariantHolds (b : Building) : Prop :=
  ∀ n ∈ b.dataframe.cols.map Prod.fst,
    (b.sensors.filter (fun s => s.type == n)).length = 1

instance (b : Building) : Decidable (invariantHolds b) := by
  unfold invariantHolds; infer_instance

/-! ## Basic lemmas about `mapOpt` -/

theorem mapOpt_length {f : α → Option β} :
    ∀ {l : List α} {l' : List β}, mapOpt f l = some l' → l'.length = l.length := by
  intro l
  induction l with
  | nil => intro l' h; simp [mapOpt] at h; simp [← h]
  | cons a rest ih =>
    intro l' h
    simp only [mapOpt] at h
    cases hf : f a with
    | none => rw [hf] at h; simp at h
    | some b =>
      rw [hf] at h
      cases hr : mapOpt f rest with
      | none => rw [hr] at h; simp at h
      | some bs =>
        rw [hr] at h
        simp at h
        subst h
        simp [ih hr]

theorem mapOpt_none_of_mem {f : α → Option β} {l : List α} {a : α}
    (hmem : a ∈ l) (hf : f a = none) : mapOpt f l = none := by
  induction l with
  | nil => cases hmem
  | cons x rest ih =>
    simp only [mapOpt]
    rcases List.mem_cons.mp hmem with h | h
    · subst h; rw [hf]
    · cases hx : f x with
      | none => rfl
      | some b => rw [ih h]; rfl

theorem mapOpt_mem_of_mem {f : α → Option β} {l : List α} {l' : List β} {a : α} {b : β}
    (h : mapOpt f l = some l') (hmem : a ∈ l) (hf : f a = some b) : b ∈ l' := by
  induction l generalizing l' with
  | nil => cases hmem
  | cons x rest ih =>
    simp only [mapOpt] at h
    cases hx : f x with
    | none => rw [hx] at h; simp at h
    | some y =>
      rw [hx] at h
      cases hr : mapOpt f rest with
      | none => rw [hr] at h; simp at h
      | some ys =>
        rw [hr] at h
        simp at h
        subst h
        rcases List.mem_cons.mp hmem with h | h
        · subst h
          rw [hx] at hf
          simp at hf
          simp [hf]
        · exact List.mem_cons_of_mem _ (ih hr h)

theorem mapOpt_forall_exists {f : α → Option β} {l : List α} {l' : List β}
    (h : mapOpt f l = some l') : ∀ b ∈ l', ∃ a ∈ l, f a = some b := by
  induction l generalizing l' with
  | nil => simp [mapOpt] at h; subst h; simp
  | cons x rest ih =>
    simp only [mapOpt] at h
    cases hx : f x with
    | none => rw [hx] at h; simp at h
    | some y =>
      rw [hx] at h
      cases hr : mapOpt f rest with
      | none => rw [hr] at h; simp at h
      | some ys =>
        rw [hr] at h
        simp at h
        subst h
        intro b hb
        rcases List.mem_cons.mp hb with h | h
        · exact ⟨x, List.mem_cons_self x rest, h ▸ hx⟩
        · rcases ih hr b h with ⟨a, ha, hfa⟩
          exact ⟨a, List.mem_cons_of_mem _ ha, hfa⟩

theorem mapOpt_eq_map {f : α → Option β} {g : α → β} :
    ∀ {l : List α}, (∀ a ∈ l, f a = some (g a)) → mapOpt f l = some (l.map g) := by
  intro l
  induction l with
  | nil => intro _; rfl
  | cons x rest ih =>
    intro h
    simp only [mapOpt]
    rw [h x (List.mem_cons_self x rest), ih (fun a ha => h a (List.mem_cons_of_mem _ ha))]
    rfl

theorem mapOpt_map {f : β → Option γ} {g : α → β} :
    ∀ {l : List α}, mapOpt f (l.map g) = mapOpt (fun a => f (g a)) l := by
  intro l
  induction l with
  | nil => rfl
  | cons x rest ih => simp only [List.map_cons, mapOpt, ih]

/-! ## Decimal round-trip lemmas -/

theorem digitVal_digitChar {d : Nat} (hd : d < 10) : digitVal (digitChar d) = some d := by
  interval_cases d <;> decide

theorem digitChar_ne_dash (d : Nat) : digitChar d ≠ '-' := by
  unfold digitChar
  set r := d % 10 with hr
  have h : r < 10 := hr ▸ Nat.mod_lt _ (by omega)
  interval_cases r <;> decide

theorem natDigitsRev_zero : natDigitsRev 0 = [] := by
  simp [natDigitsRev]

theorem natDigitsRev_succ (m : Nat) :
    natDigitsRev (m + 1) = digitChar ((m + 1) % 10) :: natDigitsRev ((m + 1) / 10) := by
  simp [natDigitsRev]

theorem parseDigitsRev_natDigitsRev (n : Nat) : parseDigitsRev (natDigitsRev n) = some n := by
  induction n using Nat.strong_induction_on with
  | _ n ih =>
    match n with
    | 0 => rw [natDigitsRev_zero]; rfl
    | m + 1 =>
      rw [natDigitsRev_succ]
      simp only [parseDigitsRev]
      rw [digitVal_digitChar (Nat.mod_lt _ (by omega)),
        ih ((m + 1) / 10) (Nat.div_lt_self (Nat.succ_pos m) (by omega))]
      simp [Nat.mod_add_div]

theorem natDigitsRev_ne_nil {n : Nat} (hn : n ≠ 0) : natDigitsRev n ≠ [] := by
  match n with
  | 0 => exact absurd rfl hn
  | m + 1 => rw [natDigitsRev_succ]; simp

theorem mem_natDigitsRev_ne_dash {n : Nat} {c : Char} (hc : c ∈ natDigitsRev n) : c ≠ '-' := by
  induction n using Nat.strong_induction_on with
  | _ n ih =>
    match n with
    | 0 => rw [natDigitsRev_zero] at hc; cases hc
    | m + 1 =>
      rw [natDigitsRev_succ] at hc
      rcases List.mem_cons.mp hc with h | h
      · exact h ▸ digitChar_ne_dash _
      · exact ih ((m + 1) / 10) (Nat.div_lt_self (Nat.succ_pos m) (by omega)) h

theorem natChars_ne_nil (n : Nat) : natChars n ≠ [] := by
  unfold natChars
  split
  · simp
  · simpa using natDigitsRev_ne_nil (by assumption)

theorem parseDigitsRev_natChars_reverse (n : Nat) :
    parseDigitsRev (natChars n).reverse = some n := by
  unfold natChars
  split
  · subst ‹n = 0›; rfl
  · rw [List.reverse_reverse]; exact parseDigitsRev_natDigitsRev n

theorem mem_natChars_ne_dash {n : Nat} {c : Char} (hc : c ∈ natChars n) : c ≠ '-' := by
  unfold natChars at hc
  split at hc
  · simp at hc; subst hc; decide
  · exact mem_natDigitsRev_ne_dash (List.mem_reverse.mp hc)

theorem parseMs_renderMs (i : Int) : parseMs (renderMs i) = some i := by
  match i with
  | Int.ofNat n =>
    show parseMs (String.mk (natChars n)) = some (Int.ofNat n)
    unfold parseMs
    cases hn : natChars n with
    | nil => exact absurd hn (natChars_ne_nil n)
    | cons c cs =>
      have hc : c ≠ '-' := mem_natChars_ne_dash (hn ▸ List.mem_cons_self c cs)
      simp only [if_neg hc]
      rw [← hn, parseDigitsRev_natChars_reverse n]
      rfl
  | Int.negSucc m =>
    show parseMs (String.mk ('-' :: natChars (m + 1))) = some (Int.negSucc m)
    unfold parseMs
    simp only [if_pos rfl, if_neg (natChars_ne_nil (m + 1))]
    rw [parseDigitsRev_natChars_reverse (m + 1)]
    simp [Int.negSucc_eq]

theorem renderMs_injective : Function.Injective renderMs := by
  intro i j h
  have := parseMs_renderMs i
  rw [h, parseMs_renderMs j] at this
  exact (Option.some.injEq _ _ ▸ this).symm

/-! ## String append cancellation -/

theorem string_append_right_cancel {a b t : String} (h : a ++ t = b ++ t) : a = b := by
  have hd : a.data ++ t.data = b.data ++ t.data := by
    have := congrArg String.data h
    simpa using this
  cases a; cases b
  simp_all [(List.append_left_inj _).mp hd]

/-! ## Lemmas about column statistics -/

theorem minList_le {l : List ℚ} {m : ℚ} (h : minList l = some m) : ∀ x ∈ l, m ≤ x := by
  induction l generalizing m with
  | nil => simp [minList] at h
  | cons a rest ih =>
    simp only [minList] at h
    intro x hx
    cases hr : minList rest with
    | none =>
      rw [hr] at h
      simp at h
      cases rest with
      | nil =>
        simp at hx
        simp [hx, ← h]
      | cons b r2 => simp [minList] at hr
    | some m2 =>
      rw [hr] at h
      simp at h
      rcases List.mem_cons.mp hx with h1 | h1
      · rw [← h, h1]; exact min_le_left _ _
      · calc m ≤ m2 := h ▸ min_le_right _ _
          _ ≤ x := ih hr x h1

theorem minList_mem {l : List ℚ} {m : ℚ} (h : minList l = some m) : m ∈ l := by
  induction l generalizing m with
  | nil => simp [minList] at h
  | cons a rest ih =>
    simp only [minList] at h
    cases hr : minList rest with
    | none => rw [hr] at h; simp at h; simp [← h]
    | some m2 =>
      rw [hr] at h
      simp at h
      rcases min_cases a m2 with ⟨heq, _⟩ | ⟨heq, _⟩
      · rw [← h, heq]; exact List.mem_cons_self _ _
      · rw [← h, heq]; exact List.mem_cons_of_mem _ (ih hr)

theorem le_maxList {l : List ℚ} {m : ℚ} (h : maxList l = some m) : ∀ x ∈ l, x ≤ m := by
  induction l generalizing m with
  | nil => simp [maxList] at h
  | cons a rest ih =>
    simp only [maxList] at h
    intro x hx
    cases hr : maxList rest with
    | none =>
      rw [hr] at h
      simp at h
      cases rest with
      | nil =>
        simp at hx
        simp [hx, ← h]
      | cons b r2 => simp [maxList] at hr
    | some m2 =>
      rw [hr] at h
      simp at h
      rcases List.mem_cons.mp hx with h1 | h1
      · rw [← h, h1]; exact le_max_left _ _
      · calc x ≤ m2 := ih hr x h1
          _ ≤ m := h ▸ le_max_right _ _

theorem maxList_mem {l : List ℚ} {m : ℚ} (h : maxList l = some m) : m ∈ l := by
  induction l generalizing m with
  | nil => simp [maxList] at h
  | cons a rest ih =>
    simp only [maxList] at h
    cases hr : maxList rest with
    | none => rw [hr] at h; simp at h; simp [← h]
    | some m2 =>
      rw [hr] at h
      simp at h
      rcases max_cases a m2 with ⟨heq, _⟩ | ⟨heq, _⟩
      · rw [← h, heq]; exact List.mem_cons_self _ _
      · rw [← h, heq]; exact List.mem_cons_of_mem _ (ih hr)

theorem ratSqrt_spec {q s : ℚ} (h : ratSqrt q = some s) : 0 ≤ s ∧ s * s = q := by
  simp only [ratSqrt] at h
  split at h
  · simp at h
  · rename_i hq
    split at h
    · rename_i hsq
      obtain ⟨hn, hd⟩ := hsq
      simp only [Option.some.injEq] at h
      subst h
      constructor
      · positivity
      · have hq0 : 0 ≤ q := le_of_not_lt hq
        have hnum : ((q.num.toNat : ℤ) : ℚ) = (q.num : ℚ) := by
          exact_mod_cast congrArg (fun z : ℤ => (z : ℚ)) (Int.toNat_of_nonneg (Rat.num_nonneg.mpr hq0))
        have hden : (q.den : ℚ) ≠ 0 := by
          exact_mod_cast Nat.cast_ne_zero.mpr q.den_nz
        rw [div_mul_div_comm]
        rw [show ((Nat.sqrt q.num.toNat : ℚ) * (Nat.sqrt q.num.toNat : ℚ)) = ((Nat.sqrt q.num.toNat * Nat.sqrt q.num.toNat : ℕ) : ℚ) by push_cast; ring]
        rw [show ((Nat.sqrt q.den : ℚ) * (Nat.sqrt q.den : ℚ)) = ((Nat.sqrt q.den * Nat.sqrt q.den : ℕ) : ℚ) by push_cast; ring]
        rw [hn, hd]
        rw [show ((q.num.toNat : ℕ) : ℚ) = (q.num : ℚ) by exact_mod_cast hnum]
        exact Rat.num_div_den q
    · simp at h

/-! ## Lemmas about frame columns and differencing -/

theorem getCol?_isSome_iff {df : DataFrame} {n : String} :
    (getCol? df n).isSome ↔ n ∈ df.cols.map Prod.fst := by
  unfold getCol?
  rw [Option.isSome_map']
  rw [List.find?_isSome]
  simp [List.mem_map]

theorem getCol?_eq_none {df : DataFrame} {n : String}
    (h : n ∉ df.cols.map Prod.fst) : getCol? df n = none := by
  have := @getCol?_isSome_iff df n
  cases hg : getCol? df n with
  | none => rfl
  | some v => exact absurd (this.mp (by simp [hg])) h

theorem setCol_fresh {df : DataFrame} {n : String} {v : List (Option ℚ)}
    (h : n ∉ df.cols.map Prod.fst) :
    setCol df n v = ⟨df.index, df.cols ++ [(n, v)]⟩ := by
  unfold setCol
  rw [if_neg h]

theorem getCol?_diffDF (df : DataFrame) (n : String) :
    getCol? (diffDF df) n = (getCol? df n).map diffCol := by
  unfold getCol? diffDF
  simp only
  rw [List.find?_map]
  have : ((fun c : String × List (Option ℚ) => c.1 == n) ∘
      (fun c : String × List (Option ℚ) => (c.1, diffCol c.2))) =
      (fun c : String × List (Option ℚ) => c.1 == n) := by
    funext c; rfl
  rw [this]
  cases df.cols.find? (fun c => c.1 == n) <;> rfl

theorem diffDF_names (df : DataFrame) :
    (diffDF df).cols.map Prod.fst = df.cols.map Prod.fst := by
  unfold diffDF
  simp

theorem diffCol_length (v : List (Option ℚ)) : (diffCol v).length = v.length := by
  cases v with
  | nil => rfl
  | cons a rest =>
    simp only [diffCol, List.length_cons]
    rw [List.length_zipWith]
    simp [Nat.min_def]

theorem diffCol_get_zero {v : List (Option ℚ)} (h : v ≠ []) :
    (diffCol v)[0]? = some none := by
  cases v with
  | nil => exact absurd rfl h
  | cons a rest => simp [diffCol]

theorem zipWith_pair_get {f : Option ℚ → Option ℚ → Option ℚ} :
    ∀ (v : List (Option ℚ)) (i : Nat) (a b : Option ℚ),
      v[i]? = some a → v[i + 1]? = some b →
      (List.zipWith f v v.tail)[i]? = some (f a b) := by
  intro v
  induction v with
  | nil => intro i a b h; simp at h
  | cons x rest ih =>
    intro i a b h1 h2
    cases rest with
    | nil => simp at h2
    | cons y rest2 =>
      simp only [List.tail_cons, List.zipWith_cons_cons]
      cases i with
      | zero =>
        simp at h1 h2 ⊢
        rw [h1, h2]
      | succ j =>
        rw [List.getElem?_cons_succ] at h1 h2
        rw [List.getElem?_cons_succ]
        exact ih j a b h1 h2

theorem diffCol_get_succ {v : List (Option ℚ)} {i : Nat} {x y : ℚ}
    (h1 : v[i]? = some (some x)) (h2 : v[i + 1]? = some (some y)) :
    (diffCol v)[i + 1]? = some (some (y - x)) := by
  cases v with
  | nil => simp at h1
  | cons a rest =>
    simp only [diffCol, List.getElem?_cons_succ]
    have := zipWith_pair_get (f := fun prev cur =>
      match prev, cur with
      | some p, some c => some (c - p)
      | _, _ => none) (a :: rest) i (some x) (some y) h1 h2
    simpa using this

/-! ## Lemmas about the differencing loop -/

theorem addDiffLoop_none {dv : DataFrame} {sel : List Sensor} {s : Sensor}
    (hmem : s ∈ sel) (hnone : getCol? dv s.type = none) :
    ∀ b, addDiffLoop dv sel b = none := by
  induction sel with
  | nil => cases hmem
  | cons t rest ih =>
    intro b
    simp only [addDiffLoop]
    rcases List.mem_cons.mp hmem with h | h
    · subst h
      rw [hnone]
    · cases ht : getCol? dv t.type with
      | none => rfl
      | some col => exact ih h _

theorem addDiffLoop_success {dv : DataFrame} {sel : List Sensor} {b b' : Building}
    (h : addDiffLoop dv sel b = some b') :
    ∀ s ∈ sel, (getCol? dv s.type).isSome := by
  induction sel generalizing b with
  | nil => simp
  | cons t rest ih =>
    simp only [addDiffLoop] at h
    cases ht : getCol? dv t.type with
    | none => rw [ht] at h; simp at h
    | some col =>
      rw [ht] at h
      intro s hs
      rcases List.mem_cons.mp hs with h1 | h1
      · subst h1; simp [ht]
      · exact ih h s h1

theorem addDiffLoop_spec {dv : DataFrame} {sel : List Sensor} :
    ∀ {b : Building},
      (∀ s ∈ sel, (getCol? dv s.type).isSome) →
      (∀ s ∈ sel, (s.type ++ " Diff") ∉ b.dataframe.cols.map Prod.fst) →
      (sel.map Sensor.type).Nodup →
      addDiffLoop dv sel b = some
        ⟨b.name, b.sensors ++ sel.map diffSensor,
         ⟨b.dataframe.index,
          b.dataframe.cols ++ sel.map
            (fun s => (s.type ++ " Diff", (getCol? dv s.type).getD []))⟩⟩ := by
  induction sel with
  | nil =>
    intro b _ _ _
    simp [addDiffLoop]
  | cons t rest ih =>
    intro b hsome hfresh hnd
    simp only [addDiffLoop]
    cases ht : getCol? dv t.type with
    | none =>
      have := hsome t (List.mem_cons_self t rest)
      rw [ht] at this
      simp at this
    | some col =>
      dsimp only
      rw [setCol_fresh (hfresh t (List.mem_cons_self t rest))]
      have hnd' : (rest.map Sensor.type).Nodup := (List.nodup_cons.mp hnd).2
      have htn : t.type ∉ rest.map Sensor.type := (List.nodup_cons.mp hnd).1
      have hfresh' : ∀ s ∈ rest,
          (s.type ++ " Diff") ∉
            (DataFrame.mk b.dataframe.index
              (b.dataframe.cols ++ [(t.type ++ " Diff", col)])).cols.map Prod.fst := by
        intro s hs
        simp only [List.map_append, List.map_cons, List.map_nil]
        rw [List.mem_append]
        push_neg
        refine ⟨hfresh s (List.mem_cons_of_mem _ hs), ?_⟩
        simp only [List.mem_singleton]
        intro hcontra
        exact htn (string_append_right_cancel hcontra ▸ List.mem_map_of_mem Sensor.type hs)
      have := ih (b := ⟨b.name, b.sensors ++ [diffSensor t],
        ⟨b.dataframe.index, b.dataframe.cols ++ [(t.type ++ " Diff", col)]⟩⟩)
        (fun s hs => hsome s (List.mem_cons_of_mem _ hs)) hfresh' hnd'
      rw [this]
      simp [List.append_assoc, ht]

/-! ## Well-formedness of decoded tables and the encode/decode round trip -/

/-- The shape invariants every table produced by `parseTable` satisfies:
distinct column names, distinct timestamps, all columns aligned with the
index, and no index without columns. -/
def TableWF (df : DataFrame) : Prop :=
  (df.cols.map Prod.fst).Nodup ∧ df.index.Nodup ∧
    (∀ c ∈ df.cols, c.2.length = df.index.length) ∧
    (df.cols = [] → df.index = [])

theorem mapOpt_map_fst {β γ : Type} {f : String × β → Option (String × γ)}
    (hf : ∀ a b, f a = some b → b.1 = a.1) :
    ∀ {l : List (String × β)} {out : List (String × γ)},
      mapOpt f l = some out → out.map Prod.fst = l.map Prod.fst := by
  intro l
  induction l with
  | nil => intro out h; simp [mapOpt] at h; simp [← h]
  | cons a rest ih =>
    intro out h
    simp only [mapOpt] at h
    cases ha : f a with
    | none => rw [ha] at h; simp at h
    | some b =>
      rw [ha] at h
      cases hr : mapOpt f rest with
      | none => rw [hr] at h; simp at h
      | some bs =>
        rw [hr] at h
        simp at h
        subst h
        simp [hf a b ha, ih hr]

theorem parseTable_wf {j : Json} {df : DataFrame} (h : parseTable j = some df) :
    TableWF df := by
  match j with
  | Json.null => simp [parseTable] at h
  | Json.num _ => simp [parseTable] at h
  | Json.str _ => simp [parseTable] at h
  | Json.arr _ => simp [parseTable] at h
  | Json.obj colsJ =>
    simp only [parseTable] at h
    cases hm : mapOpt (fun c =>
        match c.2 with
        | Json.obj rows => some (c.1, rows)
        | _ => none) colsJ with
    | none => rw [hm] at h; simp at h
    | some colRows =>
      rw [hm] at h
      dsimp only at h
      split at h
      case isFalse => simp at h
      case isTrue hnd =>
        match hcr : colRows with
        | [] =>
          simp at h
          rw [← h]
          exact ⟨List.nodup_nil, List.nodup_nil, by simp, by simp⟩
        | c0 :: rest =>
          dsimp only at h
          split at h
          case isFalse => simp at h
          case isTrue hall =>
            cases hk : mapOpt parseMs (c0.2.map Prod.fst) with
            | none => rw [hk] at h; simp at h
            | some idx =>
              rw [hk] at h
              dsimp only at h
              split at h
              case isFalse => simp at h
              case isTrue hidxnd =>
                cases hc : mapOpt (fun c =>
                    (mapOpt (fun r => parseCell r.2) c.2).map
                      (fun vs => (c.1, vs))) (c0 :: rest) with
                | none => rw [hc] at h; simp at h
                | some cols =>
                  rw [hc] at h
                  simp at h
                  rw [← h]
                  have hfst : cols.map Prod.fst = (c0 :: rest).map Prod.fst := by
                    refine mapOpt_map_fst ?_ hc
                    intro a b hab
                    cases hma : mapOpt (fun r => parseCell r.2) a.2 with
                    | none => rw [hma] at hab; simp at hab
                    | some vs => rw [hma] at hab; simp at hab; simp [← hab]
                  have hkeylen : idx.length = (c0.2.map Prod.fst).length :=
                    mapOpt_length hk
                  refine ⟨by rw [hfst]; exact hnd, hidxnd, ?_, ?_⟩
                  · intro c hcmem
                    rcases mapOpt_forall_exists hc c hcmem with ⟨q, hq, hfq⟩
                    cases hmq : mapOpt (fun r => parseCell r.2) q.2 with
                    | none => rw [hmq] at hfq; simp at hfq
                    | some vs =>
                      rw [hmq] at hfq
                      simp at hfq
                      have hlen1 : vs.length = q.2.length := mapOpt_length hmq
                      have hkeys : q.2.map Prod.fst = c0.2.map Prod.fst := by
                        have := List.all_eq_true.mp hall q hq
                        simpa using this
                      have : c.2.length = q.2.length := by rw [← hfq]; simpa using hlen1
                      rw [this]
                      have : q.2.length = (c0.2.map Prod.fst).length := by
                        rw [← hkeys]; simp
                      simp only [this, hkeylen]
                  · intro hnil
                    dsimp only at hnil
                    rw [hnil] at hfst
                    simp at hfst

theorem parseCell_cellToJson (v : Option ℚ) : parseCell (cellToJson v) = some v := by
  cases v <;> rfl


theorem parseTable_tableToJson {df : DataFrame} (wf : TableWF df) :
    parseTable (tableToJson df) = some df := by
  obtain ⟨idx, cols⟩ := df
  obtain ⟨hnd, hidxnd, hlen, hnil⟩ := wf
  dsimp only at hnd hidxnd hlen hnil
  cases cols with
  | nil =>
    have : idx = [] := hnil rfl
    subst this
    rfl
  | cons c cs =>
    have hm : mapOpt (fun c : String × Json =>
        match c.2 with
        | Json.obj rows => some (c.1, rows)
        | _ => none)
        ((c :: cs).map (fun c =>
          (c.1, Json.obj (List.zip (idx.map renderMs) (c.2.map cellToJson))))) =
        some ((c :: cs).map (fun c =>
          (c.1, List.zip (idx.map renderMs) (c.2.map cellToJson)))) := by
      rw [mapOpt_map]
      exact mapOpt_eq_map (fun a _ => rfl)
    have hndm : ((((c :: cs).map (fun c =>
        (c.1, List.zip (idx.map renderMs) (c.2.map cellToJson)))).map Prod.fst).Nodup) := by
      simpa using hnd
    have hzipfst : ∀ a ∈ c :: cs,
        (List.zip (idx.map renderMs) (a.2.map cellToJson)).map Prod.fst =
          idx.map renderMs := by
      intro a ha
      apply List.map_fst_zip
      simp [hlen a ha]
    have hall : ((c :: cs).map (fun c =>
        (c.1, List.zip (idx.map renderMs) (c.2.map cellToJson)))).all
          (fun q => decide (q.2.map Prod.fst =
            (List.zip (idx.map renderMs) (c.2.map cellToJson)).map Prod.fst)) = true := by
      rw [List.all_eq_true]
      intro q hq
      rcases List.mem_map.mp hq with ⟨a, ha, rfl⟩
      rw [decide_eq_true_eq]
      dsimp only
      rw [hzipfst a ha, hzipfst c (List.mem_cons_self c cs)]
    have hkeys : mapOpt parseMs
        ((List.zip (idx.map renderMs) (c.2.map cellToJson)).map Prod.fst) = some idx := by
      rw [hzipfst c (List.mem_cons_self c cs), mapOpt_map]
      rw [mapOpt_eq_map (g := id) (fun a _ => parseMs_renderMs a)]
      simp
    have hcells : mapOpt (fun q : String × List (String × Json) =>
        (mapOpt (fun r => parseCell r.2) q.2).map (fun vs => (q.1, vs)))
        ((c :: cs).map (fun c =>
          (c.1, List.zip (idx.map renderMs) (c.2.map cellToJson)))) =
        some (c :: cs) := by
      rw [mapOpt_map]
      rw [mapOpt_eq_map (g := id) ?_]
      · simp
      · intro a ha
        dsimp only
        have hz : (List.zip (idx.map renderMs) (a.2.map cellToJson)).map Prod.snd =
            a.2.map cellToJson := by
          apply List.map_snd_zip
          simp [hlen a ha]
        have h1 : mapOpt (fun r : String × Json => parseCell r.2)
            (List.zip (idx.map renderMs) (a.2.map cellToJson)) = some a.2 := by
          have h2 := mapOpt_map (f := parseCell) (g := Prod.snd)
            (l := List.zip (idx.map renderMs) (a.2.map cellToJson))
          rw [← h2, hz, mapOpt_map, mapOpt_eq_map (g := id)
            (fun v _ => parseCell_cellToJson v)]
          simp
        rw [h1]
        rfl
    show parseTable (tableToJson ⟨idx, c :: cs⟩) = some ⟨idx, c :: cs⟩
    rw [tableToJson]
    dsimp only
    rw [parseTable]
    rw [hm]
    dsimp only
    rw [if_pos hndm]
    rw [show List.map (fun c : String × List (Option ℚ) =>
          (c.1, (List.map renderMs idx).zip (List.map cellToJson c.2))) (c :: cs) =
        (c.1, (List.map renderMs idx).zip (List.map cellToJson c.2)) ::
          List.map (fun c : String × List (Option ℚ) =>
            (c.1, (List.map renderMs idx).zip (List.map cellToJson c.2))) cs from rfl]
    dsimp only
    rw [if_pos (by simpa using hall)]
    rw [hkeys]
    dsimp only
    rw [if_pos hidxnd]
    rw [show ((c.1, (List.map renderMs idx).zip (List.map cellToJson c.2)) ::
          List.map (fun c : String × List (Option ℚ) =>
            (c.1, (List.map renderMs idx).zip (List.map cellToJson c.2))) cs) =
        List.map (fun c : String × List (Option ℚ) =>
          (c.1, (List.map renderMs idx).zip (List.map cellToJson c.2))) (c :: cs) from rfl]
    rw [hcells]

theorem json_to_buildings_entry {X : Payload} {C : BuildingCollection}
    (h : json_to_buildings X = some C) :
    ∀ e ∈ C, e.2.name = e.1 ∧ TableWF e.2.dataframe := by
  intro e he
  rcases mapOpt_forall_exists h e he with ⟨x, _, hfx⟩
  cases hb : (loads x.2.dataframe).bind parseTable with
  | none => rw [hb] at hfx; simp at hfx
  | some df =>
    rw [hb] at hfx
    simp at hfx
    have hwf : TableWF df := by
      rcases Option.bind_eq_some.mp hb with ⟨j, _, hp⟩
      exact parseTable_wf hp
    rw [← hfx]
    exact ⟨rfl, hwf⟩

/-- C4: decoding a valid payload, re-encoding the result with the
encoder, and decoding again yields the same building collection —
sensor lists, names and all table values included (values are exact
rationals in this model, so "equal within floating-point tolerance"
is exact equality). -/
theorem C4_decode_encode_roundtrip (X : Payload) (C : BuildingCollection)
    (h : json_to_buildings X = some C) :
    json_to_buildings (encode C) = some C := by
  unfold json_to_buildings encode
  rw [mapOpt_map]
  have hstep : ∀ e ∈ C, ((loads (encodeBuilding e.2).dataframe).bind parseTable).map
      (fun df => (e.1, Building.mk e.1 (encodeBuilding e.2).sensors df)) = some (id e) := by
    intro e he
    obtain ⟨hname, hwf⟩ := json_to_buildings_entry h e he
    obtain ⟨k, b⟩ := e
    dsimp only at hname hwf ⊢
    subst hname
    show ((loads (dumps (tableToJson b.dataframe))).bind parseTable).map
      (fun df => (b.name, Building.mk b.name b.sensors df)) = some (b.name, b)
    rw [show loads (dumps (tableToJson b.dataframe)) =
      some (tableToJson b.dataframe) from rfl]
    rw [Option.some_bind]
    rw [parseTable_tableToJson hwf]
    rfl
  rw [mapOpt_eq_map hstep]
  simp

/-! ## Claim theorems -/

/-- C9: decoding the empty JSON object succeeds with an empty building
collection, every transform maps the empty collection to itself, and
re-encoding yields the empty JSON object again, so every full
decode → transform → encode pipeline maps `{}` to `{}`. -/
theorem C9_empty_pipeline :
    json_to_buildings [] = some [] ∧
    add_diff_cols_for_consumption_units [] = some [] ∧
    min_max_normalization [] = [] ∧
    mean_normalization [] = [] ∧
    encode [] = [] ∧
    ((json_to_buildings []).bind add_diff_cols_for_consumption_units).map encode =
      some [] ∧
    (json_to_buildings []).map (fun c => encode (min_max_normalization c)) = some [] ∧
    (json_to_buildings []).map (fun c => encode (mean_normalization c)) = some [] :=
  ⟨rfl, rfl, rfl, rfl, rfl, rfl, rfl, rfl⟩

/-- C6: if any building entry of the payload carries a `dataframe`
string that is not valid JSON, the whole decode fails with no result —
in particular no partial collection of the well-formed buildings is
produced. -/
theorem C6_decode_fails_on_invalid (data : Payload) (k : String) (bp : BPayload)
    (s : String) (hmem : (k, bp) ∈ data) (hbad : bp.dataframe = JsonStr.invalid s) :
    json_to_buildings data = none := by
  apply mapOpt_none_of_mem hmem
  rw [hbad]
  rfl

/-- C6 witness: a two-building payload whose second entry has a
malformed `dataframe` decodes to nothing. -/
theorem C6_decode_fails_on_invalid_witness :
    ("b2", BPayload.mk none [] (JsonStr.invalid "not json")) ∈
      [("b1", BPayload.mk none [] (JsonStr.valid (Json.obj []))),
       ("b2", BPayload.mk none [] (JsonStr.invalid "not json"))] ∧
    json_to_buildings
      [("b1", BPayload.mk none [] (JsonStr.valid (Json.obj []))),
       ("b2", BPayload.mk none [] (JsonStr.invalid "not json"))] = none :=
  ⟨List.mem_cons_of_mem _ (List.mem_singleton.mpr rfl),
   C6_decode_fails_on_invalid _ "b2" (BPayload.mk none [] (JsonStr.invalid "not json"))
     "not json" (List.mem_cons_of_mem _ (List.mem_singleton.mpr rfl)) rfl⟩

/-- C7: a building with no consumption-unit sensor is left completely
unchanged by the differencing transform — same sensors, same table —
and it reappears unchanged in the transformed collection. -/
theorem C7_diff_noop_without_consumption (c c' : BuildingCollection) (k : String)
    (b : Building) (hsel : b.sensors.filter isConsumption = [])
    (hc : add_diff_cols_for_consumption_units c = some c') (hmem : (k, b) ∈ c) :
    add_diff_cols_building b = some b ∧ (k, b) ∈ c' := by
  have hb : add_diff_cols_building b = some b := by
    unfold add_diff_cols_building
    rw [hsel]
    rfl
  refine ⟨hb, ?_⟩
  apply mapOpt_mem_of_mem hc hmem
  rw [hb]
  rfl

/-- C7 witness: a single-sensor building measuring power (`"kW"`, not a
consumption unit) passes through the differencing transform
untouched. -/
theorem C7_diff_noop_without_consumption_witness :
    (Building.mk "b" [Sensor.mk "P" "d" "kW"]
        (DataFrame.mk [0] [("P", [some 3])])).sensors.filter isConsumption = [] ∧
    add_diff_cols_for_consumption_units
      [("b", Building.mk "b" [Sensor.mk "P" "d" "kW"]
        (DataFrame.mk [0] [("P", [some 3])]))] =
      some [("b", Building.mk "b" [Sensor.mk "P" "d" "kW"]
        (DataFrame.mk [0] [("P", [some 3])]))] ∧
    add_diff_cols_building
      (Building.mk "b" [Sensor.mk "P" "d" "kW"]
        (DataFrame.mk [0] [("P", [some 3])])) =
      some (Building.mk "b" [Sensor.mk "P" "d" "kW"]
        (DataFrame.mk [0] [("P", [some 3])])) ∧
    ("b", Building.mk "b" [Sensor.mk "P" "d" "kW"]
        (DataFrame.mk [0] [("P", [some 3])])) ∈
      [("b", Building.mk "b" [Sensor.mk "P" "d" "kW"]
        (DataFrame.mk [0] [("P", [some 3])]))] :=
  ⟨by decide, by decide,
   (C7_diff_noop_without_consumption
     [("b", Building.mk "b" [Sensor.mk "P" "d" "kW"]
       (DataFrame.mk [0] [("P", [some 3])]))]
     [("b", Building.mk "b" [Sensor.mk "P" "d" "kW"]
       (DataFrame.mk [0] [("P", [some 3])]))]
     "b"
     (Building.mk "b" [Sensor.mk "P" "d" "kW"] (DataFrame.mk [0] [("P", [some 3])]))
     (by decide) (by decide) (by decide)).1,
   (C7_diff_noop_without_consumption
     [("b", Building.mk "b" [Sensor.mk "P" "d" "kW"]
       (DataFrame.mk [0] [("P", [some 3])]))]
     [("b", Building.mk "b" [Sensor.mk "P" "d" "kW"]
       (DataFrame.mk [0] [("P", [some 3])]))]
     "b"
     (Building.mk "b" [Sensor.mk "P" "d" "kW"] (DataFrame.mk [0] [("P", [some 3])]))
     (by decide) (by decide) (by decide)).2⟩

/-- C8: a consumption-unit sensor whose type has no matching table
column makes the differencing transform fail with an error — it neither
skips the sensor nor invents a column, and the whole collection-level
call produces no result. -/
theorem C8_diff_fails_on_missing_column (c : BuildingCollection) (k : String)
    (b : Building) (s : Sensor) (hs : s ∈ b.sensors) (hunit : isConsumption s = true)
    (hnocol : s.type ∉ b.dataframe.cols.map Prod.fst) (hmem : (k, b) ∈ c) :
    add_diff_cols_building b = none ∧
      add_diff_cols_for_consumption_units c = none := by
  have hb : add_diff_cols_building b = none := by
    unfold add_diff_cols_building
    apply addDiffLoop_none (s := s)
    · exact List.mem_filter.mpr ⟨hs, hunit⟩
    · apply getCol?_eq_none
      rw [diffDF_names]
      exact hnocol
  refine ⟨hb, ?_⟩
  apply mapOpt_none_of_mem hmem
  rw [hb]
  rfl

/-- C8 witness: a building whose `"kWh"` sensor `"E"` has no column
`"E"` in its table makes the transform fail. -/
theorem C8_diff_fails_on_missing_column_witness :
    Sensor.mk "E" "d" "kWh" ∈
      (Building.mk "b" [Sensor.mk "E" "d" "kWh"]
        (DataFrame.mk [0] [("P", [some 3])])).sensors ∧
    isConsumption (Sensor.mk "E" "d" "kWh") = true ∧
    "E" ∉ (DataFrame.mk [0] [("P", [some (3 : ℚ)])]).cols.map Prod.fst ∧
    add_diff_cols_building
      (Building.mk "b" [Sensor.mk "E" "d" "kWh"]
        (DataFrame.mk [0] [("P", [some 3])])) = none ∧
    add_diff_cols_for_consumption_units
      [("b", Building.mk "b" [Sensor.mk "E" "d" "kWh"]
        (DataFrame.mk [0] [("P", [some 3])]))] = none :=
  ⟨by decide, by decide, by decide,
   (C8_diff_fails_on_missing_column
     [("b", Building.mk "b" [Sensor.mk "E" "d" "kWh"]
       (DataFrame.mk [0] [("P", [some 3])]))]
     "b"
     (Building.mk "b" [Sensor.mk "E" "d" "kWh"] (DataFrame.mk [0] [("P", [some 3])]))
     (Sensor.mk "E" "d" "kWh") (by decide) (by decide) (by decide) (by decide)).1,
   (C8_diff_fails_on_missing_column
     [("b", Building.mk "b" [Sensor.mk "E" "d" "kWh"]
       (DataFrame.mk [0] [("P", [some 3])]))]
     "b"
     (Building.mk "b" [Sensor.mk "E" "d" "kWh"] (DataFrame.mk [0] [("P", [some 3])]))
     (Sensor.mk "E" "d" "kWh") (by decide) (by decide) (by decide) (by decide)).2⟩

/-- C10: both normalization transforms touch only the numeric cell
values: building names, sensor lists, the sequence of column names and
the row index of every building are exactly preserved. -/
theorem C10_normalization_frame (c : BuildingCollection) :
    (min_max_normalization c).map (fun kv =>
      (kv.1, kv.2.name, kv.2.sensors, kv.2.dataframe.index,
        kv.2.dataframe.cols.map Prod.fst)) =
      c.map (fun kv =>
        (kv.1, kv.2.name, kv.2.sensors, kv.2.dataframe.index,
          kv.2.dataframe.cols.map Prod.fst)) ∧
    (mean_normalization c).map (fun kv =>
      (kv.1, kv.2.name, kv.2.sensors, kv.2.dataframe.index,
        kv.2.dataframe.cols.map Prod.fst)) =
      c.map (fun kv =>
        (kv.1, kv.2.name, kv.2.sensors, kv.2.dataframe.index,
          kv.2.dataframe.cols.map Prod.fst)) := by
  constructor <;>
    simp [min_max_normalization, minMaxBuilding, mean_normalization, meanBuilding,
      List.map_map, Function.comp]

/-- C2: min-max normalization rescales every cell of every column of
every building with that column's own minimum and maximum,
`(x - min) / (max - min)`; on a non-constant column all resulting
values lie in `[0, 1]`; the transform covers every column, whatever
the unit of its sensor; and on the column `[0, 5, 10]` it produces
`[0, 1/2, 1]`. -/
theorem C2_minmax_spec (c : BuildingCollection) (k : String) (b : Building)
    (n : String) (v : List (Option ℚ)) (mn mx : ℚ)
    (hmem : (k, b) ∈ c) (hcol : (n, v) ∈ b.dataframe.cols)
    (hmn : colMin v = some mn) (hmx : colMax v = some mx) (hne : mn ≠ mx) :
    (k, minMaxBuilding b) ∈ min_max_normalization c ∧
    (n, minMaxCol v) ∈ (minMaxBuilding b).dataframe.cols ∧
    (∀ (i : ℕ) (x : ℚ), v[i]? = some (some x) →
      (minMaxCol v)[i]? = some (some ((x - mn) / (mx - mn))) ∧
      0 ≤ (x - mn) / (mx - mn) ∧ (x - mn) / (mx - mn) ≤ 1) ∧
    minMaxCol [some 0, some 5, some 10] = [some 0, some (1/2), some 1] := by
  have hmnmx : mn < mx := by
    have h1 : mn ∈ finiteVals v := minList_mem hmn
    have h2 : mn ≤ mx := le_maxList hmx mn h1
    exact lt_of_le_of_ne h2 hne
  refine ⟨?_, ?_, ?_, ?_⟩
  · exact List.mem_map_of_mem (fun kv => (kv.1, minMaxBuilding kv.2)) hmem
  · exact List.mem_map_of_mem (fun col => (col.1, minMaxCol col.2)) hcol
  · intro i x hx
    have hxfin : x ∈ finiteVals v := by
      apply List.mem_filterMap.mpr
      exact ⟨some x, List.getElem?_mem hx, rfl⟩
    have hxlo : mn ≤ x := minList_le hmn x hxfin
    have hxhi : x ≤ mx := le_maxList hmx x hxfin
    have hpos : 0 < mx - mn := sub_pos.mpr hmnmx
    refine ⟨?_, ?_, ?_⟩
    · unfold minMaxCol
      rw [List.getElem?_map, hx]
      simp only [Option.map_some']
      rw [hmn, hmx]
      dsimp only
      rw [if_neg hne]
    · exact div_nonneg (sub_nonneg.mpr hxlo) (le_of_lt hpos)
    · rw [div_le_one hpos]
      exact sub_le_sub_right hxhi mn
  · have h1 : colMin [some 0, some 5, some (10 : ℚ)] = some 0 := by decide
    have h2 : colMax [some 0, some 5, some (10 : ℚ)] = some 10 := by decide
    unfold minMaxCol
    rw [List.map_cons, List.map_cons, List.map_cons, List.map_nil]
    rw [h1, h2]
    norm_num

/-- C2 witness: a two-building collection where the kWh column of the
first building is `[0, 5, 10]`. -/
theorem C2_minmax_spec_witness :
    ("b1", Building.mk "b1" [Sensor.mk "A" "d" "kWh"]
        (DataFrame.mk [0, 1, 2] [("A", [some 0, some 5, some 10])])) ∈
      [("b1", Building.mk "b1" [Sensor.mk "A" "d" "kWh"]
        (DataFrame.mk [0, 1, 2] [("A", [some 0, some 5, some 10])]))] ∧
    ("A", [some (0 : ℚ), some 5, some 10]) ∈
      (Building.mk "b1" [Sensor.mk "A" "d" "kWh"]
        (DataFrame.mk [0, 1, 2] [("A", [some 0, some 5, some 10])])).dataframe.cols ∧
    colMin [some (0 : ℚ), some 5, some 10] = some 0 ∧
    colMax [some (0 : ℚ), some 5, some 10] = some 10 ∧
    (0 : ℚ) ≠ 10 ∧
    (("b1", minMaxBuilding (Building.mk "b1" [Sensor.mk "A" "d" "kWh"]
        (DataFrame.mk [0, 1, 2] [("A", [some 0, some 5, some 10])]))) ∈
      min_max_normalization
        [("b1", Building.mk "b1" [Sensor.mk "A" "d" "kWh"]
          (DataFrame.mk [0, 1, 2] [("A", [some 0, some 5, some 10])]))] ∧
    ("A", minMaxCol [some (0 : ℚ), some 5, some 10]) ∈
      (minMaxBuilding (Building.mk "b1" [Sensor.mk "A" "d" "kWh"]
        (DataFrame.mk [0, 1, 2] [("A", [some 0, some 5, some 10])]))).dataframe.cols ∧
    (∀ (i : ℕ) (x : ℚ), [some (0 : ℚ), some 5, some 10][i]? = some (some x) →
      (minMaxCol [some (0 : ℚ), some 5, some 10])[i]? =
        some (some ((x - 0) / (10 - 0))) ∧
      0 ≤ (x - 0) / (10 - 0) ∧ (x - 0) / (10 - 0) ≤ 1) ∧
    minMaxCol [some 0, some 5, some 10] = [some 0, some (1/2), some 1]) :=
  ⟨by decide, by decide, by decide, by decide, by decide,
   C2_minmax_spec
     [("b1", Building.mk "b1" [Sensor.mk "A" "d" "kWh"]
       (DataFrame.mk [0, 1, 2] [("A", [some 0, some 5, some 10])]))]
     "b1"
     (Building.mk "b1" [Sensor.mk "A" "d" "kWh"]
       (DataFrame.mk [0, 1, 2] [("A", [some 0, some 5, some 10])]))
     "A" [some 0, some 5, some 10] 0 10
     (by decide) (by decide) (by decide) (by decide) (by decide)⟩

/-- The sample mean of the column `[2, 4, 6]` is 4. -/
theorem colMean_example : colMean [some 2, some 4, some 6] = some 4 := by
  have hfv : finiteVals [some (2 : ℚ), some 4, some 6] = [2, 4, 6] := by decide
  simp only [colMean, hfv]
  rw [if_neg (by norm_num : ¬ ([2, 4, 6] : List ℚ).length = 0)]
  simp only [List.sum_cons, List.sum_nil, List.length_cons, List.length_nil]
  norm_num

/-- The sample standard deviation of the column `[2, 4, 6]` is 2. -/
theorem colStd_example : colStd [some 2, some 4, some 6] = some 2 := by
  have hfv : finiteVals [some (2 : ℚ), some 4, some 6] = [2, 4, 6] := by decide
  have h4 : Nat.sqrt 4 = 2 := by simpa using Nat.sqrt_eq' 2
  have hr : ratSqrt 4 = some 2 := by
    have hn : (4 : ℚ).num.toNat = 4 := by decide
    have hd : (4 : ℚ).den = 1 := by decide
    simp only [ratSqrt]
    rw [if_neg (by norm_num : ¬ (4 : ℚ) < 0)]
    rw [hn, hd, h4, Nat.sqrt_one]
    norm_num
  have hvar : ((List.map (fun x => (x - 4) ^ 2) ([2, 4, 6] : List ℚ)).sum /
      ((([2, 4, 6] : List ℚ).length : ℚ) - 1)) = 4 := by
    simp only [List.map_cons, List.map_nil, List.sum_cons, List.sum_nil,
      List.length_cons, List.length_nil]
    norm_num
  simp only [colStd, hfv]
  rw [if_neg (by norm_num : ¬ ([2, 4, 6] : List ℚ).length ≤ 1)]
  rw [colMean_example]
  dsimp only
  rw [hvar]
  exact hr

/-- C3: mean (z-score) normalization rescales every cell of every
column of every building by `(x - mean) / stddev`, where the mean and
the standard deviation are computed over that building's column alone,
the standard deviation being the sample standard deviation
(`n - 1` denominator: `s ≥ 0` and `s·s·(n-1)` is the sum of squared
deviations); on the column `[2, 4, 6]` it produces `[-1, 0, 1]`. -/
theorem C3_mean_spec (c : BuildingCollection) (k : String) (b : Building)
    (n : String) (v : List (Option ℚ)) (m s : ℚ)
    (hmem : (k, b) ∈ c) (hcol : (n, v) ∈ b.dataframe.cols)
    (hm : colMean v = some m) (hs : colStd v = some s) (hs0 : s ≠ 0) :
    (k, meanBuilding b) ∈ mean_normalization c ∧
    (n, meanCol v) ∈ (meanBuilding b).dataframe.cols ∧
    (∀ (i : ℕ) (x : ℚ), v[i]? = some (some x) →
      (meanCol v)[i]? = some (some ((x - m) / s))) ∧
    m = (finiteVals v).sum / ((finiteVals v).length : ℚ) ∧
    2 ≤ (finiteVals v).length ∧
    0 ≤ s ∧
    s * s * (((finiteVals v).length : ℚ) - 1) =
      ((finiteVals v).map (fun y => (y - m) ^ 2)).sum ∧
    meanCol [some 2, some 4, some 6] = [some (-1), some 0, some 1] := by
  have hm' : m = (finiteVals v).sum / ((finiteVals v).length : ℚ) := by
    simp only [colMean] at hm
    split at hm
    · simp at hm
    · simp at hm
      exact hm.symm
  have hlen : 2 ≤ (finiteVals v).length := by
    simp only [colStd] at hs
    split at hs
    · simp at hs
    · omega
  have hsq : 0 ≤ s ∧ s * s =
      ((finiteVals v).map (fun y => (y - m) ^ 2)).sum /
        (((finiteVals v).length : ℚ) - 1) := by
    simp only [colStd] at hs
    split at hs
    · simp at hs
    · rw [hm] at hs
      dsimp only at hs
      exact ratSqrt_spec hs
  have hden : (((finiteVals v).length : ℚ) - 1) ≠ 0 := by
    have : (2 : ℚ) ≤ ((finiteVals v).length : ℚ) := by exact_mod_cast hlen
    linarith
  refine ⟨?_, ?_, ?_, hm', hlen, hsq.1, ?_, ?_⟩
  · exact List.mem_map_of_mem (fun kv => (kv.1, meanBuilding kv.2)) hmem
  · exact List.mem_map_of_mem (fun col => (col.1, meanCol col.2)) hcol
  · intro i x hx
    unfold meanCol
    rw [List.getElem?_map, hx]
    simp only [Option.map_some']
    rw [hm, hs]
    dsimp only
    rw [if_neg hs0]
  · rw [hsq.2, div_mul_cancel₀ _ hden]
  · unfold meanCol
    rw [List.map_cons, List.map_cons, List.map_cons, List.map_nil]
    rw [colMean_example, colStd_example]
    norm_num

/-- C3 witness: a single-building collection whose only column holds
`[2, 4, 6]` (mean 4, sample standard deviation 2). -/
theorem C3_mean_spec_witness :
    ("b1", Building.mk "b1" [Sensor.mk "A" "d" "kWh"]
        (DataFrame.mk [0, 1, 2] [("A", [some 2, some 4, some 6])])) ∈
      [("b1", Building.mk "b1" [Sensor.mk "A" "d" "kWh"]
        (DataFrame.mk [0, 1, 2] [("A", [some 2, some 4, some 6])]))] ∧
    ("A", [some (2 : ℚ), some 4, some 6]) ∈
      (Building.mk "b1" [Sensor.mk "A" "d" "kWh"]
        (DataFrame.mk [0, 1, 2] [("A", [some 2, some 4, some 6])])).dataframe.cols ∧
    colMean [some (2 : ℚ), some 4, some 6] = some 4 ∧
    colStd [some (2 : ℚ), some 4, some 6] = some 2 ∧
    (2 : ℚ) ≠ 0 ∧
    (("b1", meanBuilding (Building.mk "b1" [Sensor.mk "A" "d" "kWh"]
        (DataFrame.mk [0, 1, 2] [("A", [some 2, some 4, some 6])]))) ∈
      mean_normalization
        [("b1", Building.mk "b1" [Sensor.mk "A" "d" "kWh"]
          (DataFrame.mk [0, 1, 2] [("A", [some 2, some 4, some 6])]))] ∧
    ("A", meanCol [some (2 : ℚ), some 4, some 6]) ∈
      (meanBuilding (Building.mk "b1" [Sensor.mk "A" "d" "kWh"]
        (DataFrame.mk [0, 1, 2] [("A", [some 2, some 4, some 6])]))).dataframe.cols ∧
    (∀ (i : ℕ) (x : ℚ), [some (2 : ℚ), some 4, some 6][i]? = some (some x) →
      (meanCol [some (2 : ℚ), some 4, some 6])[i]? = some (some ((x - 4) / 2))) ∧
    (4 : ℚ) = (finiteVals [some (2 : ℚ), some 4, some 6]).sum /
      ((finiteVals [some (2 : ℚ), some 4, some 6]).length : ℚ) ∧
    2 ≤ (finiteVals [some (2 : ℚ), some 4, some 6]).length ∧
    (0 : ℚ) ≤ 2 ∧
    (2 : ℚ) * 2 * (((finiteVals [some (2 : ℚ), some 4, some 6]).length : ℚ) - 1) =
      ((finiteVals [some (2 : ℚ), some 4, some 6]).map
        (fun y => (y - 4) ^ 2)).sum ∧
    meanCol [some 2, some 4, some 6] = [some (-1), some 0, some 1]) :=
  ⟨List.mem_singleton.mpr rfl, by decide, colMean_example, colStd_example,
   by norm_num,
   C3_mean_spec
     [("b1", Building.mk "b1" [Sensor.mk "A" "d" "kWh"]
       (DataFrame.mk [0, 1, 2] [("A", [some 2, some 4, some 6])]))]
     "b1"
     (Building.mk "b1" [Sensor.mk "A" "d" "kWh"]
       (DataFrame.mk [0, 1, 2] [("A", [some 2, some 4, some 6])]))
     "A" [some 2, some 4, some 6] 4 2
     (List.mem_singleton.mpr rfl) (by decide) colMean_example colStd_example
     (by norm_num)⟩

/-! ## Further helper lemmas for the differencing claims -/

theorem mapOpt_isSome_of_mem {f : α → Option β} {l : List α} {l' : List β} {a : α}
    (h : mapOpt f l = some l') (hmem : a ∈ l) : (f a).isSome := by
  cases hfa : f a with
  | none => rw [mapOpt_none_of_mem hmem hfa] at h; cases h
  | some b => rfl

theorem beq_append_cancel (a b t : String) : ((a ++ t) == (b ++ t)) = (a == b) := by
  by_cases h : a = b
  · simp [h]
  · have hne : a ++ t ≠ b ++ t := fun hc => h (string_append_right_cancel hc)
    simp [h, hne]

theorem filter_type_eq_singleton {l : List Sensor} {a : Sensor}
    (hnd : (l.map Sensor.type).Nodup) (ha : a ∈ l) :
    l.filter (fun x => x.type == a.type) = [a] := by
  induction l with
  | nil => cases ha
  | cons x rest ih =>
    simp only [List.map_cons, List.nodup_cons] at hnd
    rcases List.mem_cons.mp ha with h | h
    · subst h
      rw [List.filter_cons_of_pos (by simp)]
      rw [List.filter_eq_nil_iff.mpr ?_]
      intro t ht
      simp only [beq_iff_eq]
      intro hc
      exact hnd.1 (hc ▸ List.mem_map_of_mem Sensor.type ht)
    · rw [List.filter_cons_of_neg ?_, ih hnd.2 h]
      simp only [beq_iff_eq]
      intro hc
      exact hnd.1 (hc ▸ List.mem_map_of_mem Sensor.type h)

theorem getColD_diff_of_some {df : DataFrame} {s : Sensor}
    (hsome : (getCol? (diffDF df) s.type).isSome) :
    (getCol? (diffDF df) s.type).getD [] = diffCol (getColD df s.type) := by
  rw [getCol?_diffDF] at hsome ⊢
  cases hg : getCol? df s.type with
  | none => rw [hg] at hsome; simp at hsome
  | some col => simp [getColD, hg]

/-- C1 (amended): for every building of the collection (with distinct
sensor types, per the data model, and fresh `" Diff"` names), the
differencing transform selects exactly the sensors whose unit is exactly
one of `"kWh"`, `"m³"`, `"kvarh"` from the pre-transform sensor list,
appends for each selected sensor a diff column named `type ++ " Diff"`
(row 0 missing, row `i ≥ 1` equal to `v[i] - v[i-1]`) and a sensor
`⟨type ++ " Diff", desc, unit ++ " / 15 min"⟩`, both in selection order;
sensors appended by the call are never differenced themselves. -/
theorem C1_diff_spec (c c' : BuildingCollection) (k : String) (b : Building)
    (hc : add_diff_cols_for_consumption_units c = some c')
    (hmem : (k, b) ∈ c)
    (hnd : (b.sensors.map Sensor.type).Nodup)
    (hfresh : ∀ s ∈ b.sensors.filter isConsumption,
      (s.type ++ " Diff") ∉ b.dataframe.cols.map Prod.fst) :
    (∀ s : Sensor, isConsumption s = true ↔
      (s.unit = "kWh" ∨ s.unit = "m³" ∨ s.unit = "kvarh")) ∧
    ∃ b', add_diff_cols_building b = some b' ∧ (k, b') ∈ c' ∧
      b'.name = b.name ∧
      b'.sensors = b.sensors ++ (b.sensors.filter isConsumption).map diffSensor ∧
      b'.dataframe.index = b.dataframe.index ∧
      b'.dataframe.cols = b.dataframe.cols ++
        (b.sensors.filter isConsumption).map
          (fun s => (s.type ++ " Diff", diffCol (getColD b.dataframe s.type))) ∧
      (∀ s ∈ b.sensors.filter isConsumption,
        (getColD b.dataframe s.type ≠ [] →
          (diffCol (getColD b.dataframe s.type))[0]? = some none) ∧
        (∀ (i : ℕ) (x y : ℚ),
          (getColD b.dataframe s.type)[i]? = some (some x) →
          (getColD b.dataframe s.type)[i + 1]? = some (some y) →
          (diffCol (getColD b.dataframe s.type))[i + 1]? = some (some (y - x)))) := by
  have hunit : ∀ s : Sensor, isConsumption s = true ↔
      (s.unit = "kWh" ∨ s.unit = "m³" ∨ s.unit = "kvarh") := by
    intro s
    simp [isConsumption, consumptionUnits]
  have hfb := mapOpt_isSome_of_mem hc hmem
  simp only [Option.isSome_map'] at hfb
  obtain ⟨b0, hb0⟩ := Option.isSome_iff_exists.mp hfb
  have hloop : addDiffLoop (diffDF b.dataframe) (b.sensors.filter isConsumption) b =
      some b0 := hb0
  have hsome := addDiffLoop_success hloop
  have hselnd : ((b.sensors.filter isConsumption).map Sensor.type).Nodup :=
    hnd.sublist (List.Sublist.map Sensor.type (List.filter_sublist b.sensors))
  have hspec := @addDiffLoop_spec (diffDF b.dataframe)
    (b.sensors.filter isConsumption) b hsome hfresh hselnd
  have hcols : (b.sensors.filter isConsumption).map
      (fun s => (s.type ++ " Diff", (getCol? (diffDF b.dataframe) s.type).getD [])) =
      (b.sensors.filter isConsumption).map
        (fun s => (s.type ++ " Diff", diffCol (getColD b.dataframe s.type))) := by
    apply List.map_congr_left
    intro s hs
    rw [getColD_diff_of_some (hsome s hs)]
  have hb' : add_diff_cols_building b = some
      ⟨b.name, b.sensors ++ (b.sensors.filter isConsumption).map diffSensor,
        ⟨b.dataframe.index, b.dataframe.cols ++
          (b.sensors.filter isConsumption).map
            (fun s => (s.type ++ " Diff", diffCol (getColD b.dataframe s.type)))⟩⟩ := by
    unfold add_diff_cols_building
    rw [hspec, hcols]
  refine ⟨hunit, ⟨b.name, b.sensors ++ (b.sensors.filter isConsumption).map diffSensor,
    ⟨b.dataframe.index, b.dataframe.cols ++
      (b.sensors.filter isConsumption).map
        (fun s => (s.type ++ " Diff", diffCol (getColD b.dataframe s.type)))⟩⟩,
    hb', ?_, rfl, rfl, rfl, rfl, ?_⟩
  · apply mapOpt_mem_of_mem hc hmem
    rw [hb']
    rfl
  · intro s _
    constructor
    · intro hne
      exact diffCol_get_zero hne
    · intro i x y h1 h2
      exact diffCol_get_succ h1 h2

/-- C1 witness: a building with a `"kWh"` sensor `"A"` and a `"kW"`
sensor `"P"`; only `"A"` is differenced and the diff column and sensor
are appended. -/
theorem C1_diff_spec_witness :
    add_diff_cols_for_consumption_units
      [("b", Building.mk "b" [Sensor.mk "A" "d" "kWh", Sensor.mk "P" "e" "kW"]
        (DataFrame.mk [0] [("A", [some 7]), ("P", [some 1])]))] =
      some [("b", Building.mk "b"
        [Sensor.mk "A" "d" "kWh", Sensor.mk "P" "e" "kW",
         Sensor.mk "A Diff" "d" "kWh / 15 min"]
        (DataFrame.mk [0] [("A", [some 7]), ("P", [some 1]), ("A Diff", [none])]))] ∧
    ((Building.mk "b" [Sensor.mk "A" "d" "kWh", Sensor.mk "P" "e" "kW"]
      (DataFrame.mk [0] [("A", [some 7]), ("P", [some 1])])).sensors.map
        Sensor.type).Nodup ∧
    (∀ s ∈ (Building.mk "b" [Sensor.mk "A" "d" "kWh", Sensor.mk "P" "e" "kW"]
        (DataFrame.mk [0] [("A", [some 7]), ("P", [some 1])])).sensors.filter
          isConsumption,
      (s.type ++ " Diff") ∉ (Building.mk "b"
        [Sensor.mk "A" "d" "kWh", Sensor.mk "P" "e" "kW"]
        (DataFrame.mk [0] [("A", [some 7]), ("P", [some 1])])).dataframe.cols.map
          Prod.fst) ∧
    ((∀ s : Sensor, isConsumption s = true ↔
      (s.unit = "kWh" ∨ s.unit = "m³" ∨ s.unit = "kvarh")) ∧
    ∃ b', add_diff_cols_building
        (Building.mk "b" [Sensor.mk "A" "d" "kWh", Sensor.mk "P" "e" "kW"]
          (DataFrame.mk [0] [("A", [some 7]), ("P", [some 1])])) = some b' ∧
      ("b", b') ∈
        [("b", Building.mk "b"
          [Sensor.mk "A" "d" "kWh", Sensor.mk "P" "e" "kW",
           Sensor.mk "A Diff" "d" "kWh / 15 min"]
          (DataFrame.mk [0]
            [("A", [some 7]), ("P", [some 1]), ("A Diff", [none])]))] ∧
      b'.name = "b" ∧
      b'.sensors = (Building.mk "b" [Sensor.mk "A" "d" "kWh", Sensor.mk "P" "e" "kW"]
          (DataFrame.mk [0] [("A", [some 7]), ("P", [some 1])])).sensors ++
        ((Building.mk "b" [Sensor.mk "A" "d" "kWh", Sensor.mk "P" "e" "kW"]
          (DataFrame.mk [0] [("A", [some 7]), ("P", [some 1])])).sensors.filter
            isConsumption).map diffSensor ∧
      b'.dataframe.index = [0] ∧
      b'.dataframe.cols = (Building.mk "b"
          [Sensor.mk "A" "d" "kWh", Sensor.mk "P" "e" "kW"]
          (DataFrame.mk [0] [("A", [some 7]), ("P", [some 1])])).dataframe.cols ++
        ((Building.mk "b" [Sensor.mk "A" "d" "kWh", Sensor.mk "P" "e" "kW"]
          (DataFrame.mk [0] [("A", [some 7]), ("P", [some 1])])).sensors.filter
            isConsumption).map
          (fun s => (s.type ++ " Diff",
            diffCol (getColD (DataFrame.mk ([0] : List Int)
              [("A", [some 7]), ("P", [some 1])]) s.type))) ∧
      (∀ s ∈ (Building.mk "b" [Sensor.mk "A" "d" "kWh", Sensor.mk "P" "e" "kW"]
          (DataFrame.mk [0] [("A", [some 7]), ("P", [some 1])])).sensors.filter
            isConsumption,
        (getColD (DataFrame.mk ([0] : List Int)
            [("A", [some 7]), ("P", [some 1])]) s.type ≠ [] →
          (diffCol (getColD (DataFrame.mk ([0] : List Int)
            [("A", [some 7]), ("P", [some 1])]) s.type))[0]? = some none) ∧
        (∀ (i : ℕ) (x y : ℚ),
          (getColD (DataFrame.mk ([0] : List Int)
            [("A", [some 7]), ("P", [some 1])]) s.type)[i]? = some (some x) →
          (getColD (DataFrame.mk ([0] : List Int)
            [("A", [some 7]), ("P", [some 1])]) s.type)[i + 1]? = some (some y) →
          (diffCol (getColD (DataFrame.mk ([0] : List Int)
            [("A", [some 7]), ("P", [some 1])]) s.type))[i + 1]? =
            some (some (y - x))))) :=
  ⟨by decide, by decide, by decide,
   C1_diff_spec
     [("b", Building.mk "b" [Sensor.mk "A" "d" "kWh", Sensor.mk "P" "e" "kW"]
       (DataFrame.mk [0] [("A", [some 7]), ("P", [some 1])]))]
     [("b", Building.mk "b"
       [Sensor.mk "A" "d" "kWh", Sensor.mk "P" "e" "kW",
        Sensor.mk "A Diff" "d" "kWh / 15 min"]
       (DataFrame.mk [0] [("A", [some 7]), ("P", [some 1]), ("A Diff", [none])]))]
     "b"
     (Building.mk "b" [Sensor.mk "A" "d" "kWh", Sensor.mk "P" "e" "kW"]
       (DataFrame.mk [0] [("A", [some 7]), ("P", [some 1])]))
     (by decide) (by decide) (by decide) (by decide)⟩

/-- C1 counterexample: the claim as frozen says a *new* column named
`type ++ " Diff"` is appended for every selected sensor.  On a building
that already has a column `"A Diff"` (with its own `"kW"` sensor) the
code instead *overwrites* that column in place: one sensor is selected,
yet the column count stays 2 instead of growing to 3, and the previous
values of `"A Diff"` are destroyed. -/
theorem C1_diff_spec_counterexample :
    add_diff_cols_building
      (Building.mk "b" [Sensor.mk "A" "d" "kWh", Sensor.mk "A Diff" "e" "kW"]
        (DataFrame.mk [0] [("A", [some 1]), ("A Diff", [some 9])])) =
      some (Building.mk "b"
        [Sensor.mk "A" "d" "kWh", Sensor.mk "A Diff" "e" "kW",
         Sensor.mk "A Diff" "d" "kWh / 15 min"]
        (DataFrame.mk [0] [("A", [some 1]), ("A Diff", [none])])) ∧
    ((Building.mk "b" [Sensor.mk "A" "d" "kWh", Sensor.mk "A Diff" "e" "kW"]
      (DataFrame.mk [0] [("A", [some 1]), ("A Diff", [some 9])])).sensors.filter
        isConsumption).length = 1 ∧
    ¬ ((DataFrame.mk ([0] : List Int) [("A", [some 1]), ("A Diff", [none])]).cols.length =
      (DataFrame.mk ([0] : List Int)
        [("A", [some 1]), ("A Diff", [some 9])]).cols.length + 1) ∧
    getCol? (DataFrame.mk ([0] : List Int)
      [("A", [some 1]), ("A Diff", [some 9])]) "A Diff" = some [some 9] ∧
    getCol? (DataFrame.mk ([0] : List Int)
      [("A", [some 1]), ("A Diff", [none])]) "A Diff" = some [none] := by
  refine ⟨by decide, by decide, by decide, by decide, by decide⟩

/-- C5 (amended): the column/sensor correspondence invariant is
preserved by the differencing transform for every building it completes
normally on, provided the derived names `type ++ " Diff"` of the
selected sensors are fresh — not already column names or sensor types of
the building.  Each appended diff column is then matched by exactly one
appended diff sensor. -/
theorem C5_diff_invariant (c c' : BuildingCollection) (k : String) (b b' : Building)
    (hc : add_diff_cols_for_consumption_units c = some c')
    (hmem : (k, b) ∈ c)
    (hinv : invariantHolds b)
    (hb' : add_diff_cols_building b = some b')
    (hfreshCol : ∀ s ∈ b.sensors.filter isConsumption,
      (s.type ++ " Diff") ∉ b.dataframe.cols.map Prod.fst)
    (hfreshSen : ∀ s ∈ b.sensors.filter isConsumption,
      (s.type ++ " Diff") ∉ b.sensors.map Sensor.type) :
    invariantHolds b' ∧ (k, b') ∈ c' := by
  have hloop : addDiffLoop (diffDF b.dataframe) (b.sensors.filter isConsumption) b =
      some b' := hb'
  have hsome := addDiffLoop_success hloop
  have hselnd : ((b.sensors.filter isConsumption).map Sensor.type).Nodup := by
    by_contra hnot
    obtain ⟨x, hx⟩ := List.exists_duplicate_iff_not_nodup.mpr hnot
    have hcount : 2 ≤ List.count x ((b.sensors.filter isConsumption).map Sensor.type) :=
      List.duplicate_iff_two_le_count.mp hx
    obtain ⟨s, hs, hsx⟩ := List.mem_map.mp hx.mem
    have hcolx : x ∈ b.dataframe.cols.map Prod.fst := by
      have h1 := hsome s hs
      rw [getCol?_isSome_iff, diffDF_names] at h1
      exact hsx ▸ h1
    have h2 : 2 ≤ ((b.sensors.filter isConsumption).filter
        (fun t => t.type == x)).length := by
      rw [List.count_eq_countP, List.countP_map, List.countP_eq_length_filter] at hcount
      exact hcount
    have h3 : ((b.sensors.filter isConsumption).filter
        (fun t => t.type == x)).length ≤
        (b.sensors.filter (fun t => t.type == x)).length :=
      ((List.filter_sublist b.sensors).filter _).length_le
    have h4 := hinv x hcolx
    omega
  have hspec := @addDiffLoop_spec (diffDF b.dataframe)
    (b.sensors.filter isConsumption) b hsome hfreshCol hselnd
  rw [hloop] at hspec
  have hb'eq := Option.some.inj hspec
  constructor
  · rw [hb'eq]
    intro nm hnm
    simp only at hnm ⊢
    rw [List.map_append, List.mem_append] at hnm
    rw [List.filter_append, List.length_append]
    rcases hnm with hold | hnew
    · have hA := hinv nm hold
      have hB : (((b.sensors.filter isConsumption).map diffSensor).filter
          (fun s => s.type == nm)).length = 0 := by
        rw [List.length_eq_zero, List.filter_eq_nil_iff]
        intro t ht
        obtain ⟨s, hs, rfl⟩ := List.mem_map.mp ht
        simp only [diffSensor, beq_iff_eq]
        intro hcontra
        exact hfreshCol s hs (hcontra ▸ hold)
      omega
    · rw [List.map_map] at hnew
      obtain ⟨s, hs, hsnm⟩ := List.mem_map.mp hnew
      have hsnm' : s.type ++ " Diff" = nm := hsnm
      have hA : (b.sensors.filter (fun t => t.type == nm)).length = 0 := by
        rw [List.length_eq_zero, List.filter_eq_nil_iff]
        intro t ht
        simp only [beq_iff_eq]
        intro hcontra
        apply hfreshSen s hs
        rw [hsnm', ← hcontra]
        exact List.mem_map_of_mem Sensor.type ht
      have hB : (((b.sensors.filter isConsumption).map diffSensor).filter
          (fun t => t.type == nm)).length = 1 := by
        rw [List.filter_map]
        rw [List.length_map]
        have hcongr : (b.sensors.filter isConsumption).filter
            ((fun t : Sensor => t.type == nm) ∘ diffSensor) =
            (b.sensors.filter isConsumption).filter
              (fun t => t.type == s.type) := by
          apply List.filter_congr
          intro t _
          show ((t.type ++ " Diff") == nm) = (t.type == s.type)
          rw [← hsnm']
          exact beq_append_cancel t.type s.type " Diff"
        rw [hcongr, filter_type_eq_singleton hselnd hs]
        rfl
      omega
  · apply mapOpt_mem_of_mem hc hmem
    rw [hb']
    rfl

/-- C5 witness: a building with a `"m³"` sensor `"C"` and a `"kW"`
sensor `"Q"`; the invariant holds before and after differencing. -/
theorem C5_diff_invariant_witness :
    add_diff_cols_for_consumption_units
      [("b", Building.mk "b" [Sensor.mk "C" "d" "m³", Sensor.mk "Q" "e" "kW"]
        (DataFrame.mk [0] [("C", [some 4]), ("Q", [some 8])]))] =
      some [("b", Building.mk "b"
        [Sensor.mk "C" "d" "m³", Sensor.mk "Q" "e" "kW",
         Sensor.mk "C Diff" "d" "m³ / 15 min"]
        (DataFrame.mk [0] [("C", [some 4]), ("Q", [some 8]), ("C Diff", [none])]))] ∧
    invariantHolds (Building.mk "b" [Sensor.mk "C" "d" "m³", Sensor.mk "Q" "e" "kW"]
      (DataFrame.mk [0] [("C", [some 4]), ("Q", [some 8])])) ∧
    add_diff_cols_building
      (Building.mk "b" [Sensor.mk "C" "d" "m³", Sensor.mk "Q" "e" "kW"]
        (DataFrame.mk [0] [("C", [some 4]), ("Q", [some 8])])) =
      some (Building.mk "b"
        [Sensor.mk "C" "d" "m³", Sensor.mk "Q" "e" "kW",
         Sensor.mk "C Diff" "d" "m³ / 15 min"]
        (DataFrame.mk [0] [("C", [some 4]), ("Q", [some 8]), ("C Diff", [none])])) ∧
    (invariantHolds (Building.mk "b"
        [Sensor.mk "C" "d" "m³", Sensor.mk "Q" "e" "kW",
         Sensor.mk "C Diff" "d" "m³ / 15 min"]
        (DataFrame.mk [0] [("C", [some 4]), ("Q", [some 8]), ("C Diff", [none])])) ∧
      ("b", Building.mk "b"
        [Sensor.mk "C" "d" "m³", Sensor.mk "Q" "e" "kW",
         Sensor.mk "C Diff" "d" "m³ / 15 min"]
        (DataFrame.mk [0] [("C", [some 4]), ("Q", [some 8]), ("C Diff", [none])])) ∈
        [("b", Building.mk "b"
          [Sensor.mk "C" "d" "m³", Sensor.mk "Q" "e" "kW",
           Sensor.mk "C Diff" "d" "m³ / 15 min"]
          (DataFrame.mk [0]
            [("C", [some 4]), ("Q", [some 8]), ("C Diff", [none])]))]) :=
  ⟨by decide, by decide, by decide,
   C5_diff_invariant
     [("b", Building.mk "b" [Sensor.mk "C" "d" "m³", Sensor.mk "Q" "e" "kW"]
       (DataFrame.mk [0] [("C", [some 4]), ("Q", [some 8])]))]
     [("b", Building.mk "b"
       [Sensor.mk "C" "d" "m³", Sensor.mk "Q" "e" "kW",
        Sensor.mk "C Diff" "d" "m³ / 15 min"]
       (DataFrame.mk [0] [("C", [some 4]), ("Q", [some 8]), ("C Diff", [none])]))]
     "b"
     (Building.mk "b" [Sensor.mk "C" "d" "m³", Sensor.mk "Q" "e" "kW"]
       (DataFrame.mk [0] [("C", [some 4]), ("Q", [some 8])]))
     (Building.mk "b"
       [Sensor.mk "C" "d" "m³", Sensor.mk "Q" "e" "kW",
        Sensor.mk "C Diff" "d" "m³ / 15 min"]
       (DataFrame.mk [0] [("C", [some 4]), ("Q", [some 8]), ("C Diff", [none])]))
     (by decide) (by decide) (by decide) (by decide) (by decide) (by decide)⟩

/-- C5 counterexample: the claim as frozen promises invariant
preservation for *every* building satisfying it before the call.  A
building with a `"kWh"` sensor `"B"` and an unrelated `"kW"` sensor of
type `"B Diff"` (with its own column) satisfies the invariant before the
call, but after differencing the single column `"B Diff"` corresponds to
*two* sensors of that type, so the invariant is broken. -/
theorem C5_diff_invariant_counterexample :
    invariantHolds (Building.mk "b"
      [Sensor.mk "B" "d" "kWh", Sensor.mk "B Diff" "e" "kW"]
      (DataFrame.mk [0] [("B", [some 2]), ("B Diff", [some 5])])) ∧
    add_diff_cols_building
      (Building.mk "b" [Sensor.mk "B" "d" "kWh", Sensor.mk "B Diff" "e" "kW"]
        (DataFrame.mk [0] [("B", [some 2]), ("B Diff", [some 5])])) =
      some (Building.mk "b"
        [Sensor.mk "B" "d" "kWh", Sensor.mk "B Diff" "e" "kW",
         Sensor.mk "B Diff" "d" "kWh / 15 min"]
        (DataFrame.mk [0] [("B", [some 2]), ("B Diff", [none])])) ∧
    ¬ invariantHolds (Building.mk "b"
      [Sensor.mk "B" "d" "kWh", Sensor.mk "B Diff" "e" "kW",
       Sensor.mk "B Diff" "d" "kWh / 15 min"]
      (DataFrame.mk [0] [("B", [some 2]), ("B Diff", [none])])) :=
  ⟨by decide, by decide, by decide⟩

/-- C4 witness: a concrete one-building payload decodes, and decoding
its re-encoding reproduces the same collection. -/
theorem C4_decode_encode_roundtrip_witness :
    json_to_buildings
      [("b1", BPayload.mk none [Sensor.mk "A" "d" "kWh"]
        (JsonStr.valid (Json.obj [("A", Json.obj
          [("0", Json.num 10), ("900000", Json.num 12), ("1800000", Json.null)])])))] =
      some [("b1", Building.mk "b1" [Sensor.mk "A" "d" "kWh"]
        (DataFrame.mk [0, 900000, 1800000] [("A", [some 10, some 12, none])]))] ∧
    json_to_buildings (encode
      [("b1", Building.mk "b1" [Sensor.mk "A" "d" "kWh"]
        (DataFrame.mk [0, 900000, 1800000] [("A", [some 10, some 12, none])]))]) =
      some [("b1", Building.mk "b1" [Sensor.mk "A" "d" "kWh"]
        (DataFrame.mk [0, 900000, 1800000] [("A", [some 10, some 12, none])]))] :=
  ⟨by decide,
   C4_decode_encode_roundtrip
     [("b1", BPayload.mk none [Sensor.mk "A" "d" "kWh"]
        (JsonStr.valid (Json.obj [("A", Json.obj
          [("0", Json.num 10), ("900000", Json.num 12), ("1800000", Json.null)])])))]
     [("b1", Building.mk "b1" [Sensor.mk "A" "d" "kWh"]
        (DataFrame.mk [0, 900000, 1800000] [("A", [some 10, some 12, none])]))]
     (by decide)⟩
